import Mathlib

/-!
Shallow embedding of the PointLab-Image2Model run pipeline.

Embedded code:
* src/preprocessing.py : load_image, save_image, preprocess_and_save_all_stages
  (the pure naming / format / control-flow part; pixel mathematics stays a black box).
* src/app.py : the process_generator closure of the /stream/<run_id> route and
  its inner run_cmd generator.  The generator is modelled as a function from an
  oracle World (filesystem listings, per-image preprocessing outcomes and the
  captured output and exit code of each launched external command) to the list
  of events it yields, in order.

Python event dicts have varying key sets and dynamically typed values (the
model-conversion stage passes a string where a progress number is expected and
an int where a stage name is expected), so event fields are Option-valued and
progress values are a sum of int and str (PyVal).
-/

/-- Dynamic value as stored in an event field: a Python int or str. -/
inductive PyVal where
  | int (n : Int)
  | str (s : String)
deriving DecidableEq, Repr

/-- One yielded event dict.  Fields that a given yield does not include are
none; the defaulted progress is never used (every yield in the source sets a
progress value). -/
structure Event where
  type : Option String := none
  stage : Option String := none
  message : Option String := none
  progress : PyVal := PyVal.int 0
  image : Option String := none
  group : Option String := none
  stage_name : Option PyVal := none
  stage_key : Option String := none
  thumbs : Option (List String) := none
  fused_ply : Option String := none
deriving DecidableEq, Repr

/-- Event of shape {"type": "status", "message": m, "progress": p}. -/
def statusEv (m : String) (p : PyVal) : Event :=
  { type := some "status", message := some m, progress := p }

/-- Event of shape {"type": "log", "message": m, "progress": p}. -/
def logEv (m : String) (p : PyVal) : Event :=
  { type := some "log", message := some m, progress := p }

/-- Event of shape {"type": "error", "message": m, "progress": p}. -/
def errorEv (m : String) (p : PyVal) : Event :=
  { type := some "error", message := some m, progress := p }

/-- Event of shape {"stage": "error", "message": m, "progress": p} -- the
differently keyed error dict yielded at app.py line 314. -/
def stageErrorEv (m : String) (p : PyVal) : Event :=
  { stage := some "error", message := some m, progress := p }

/-! ## Pure string helpers mirroring pathlib -/

/-- Python pathlib suffix of a file name: "." plus the part after the last
dot, except when there is no dot, the last dot is the final character, or the
last dot is the leading character of the name. -/
def pySuffix (n : String) : String :=
  let rev := n.data.reverse
  let pre := rev.takeWhile (fun c => c != '.')
  if pre.length = rev.length then ""
  else if pre.length = 0 then ""
  else if pre.length = rev.length - 1 then ""
  else String.mk ('.' :: pre.reverse)

/-- Python pathlib stem: the name with its suffix removed. -/
def pyStem (n : String) : String := n.dropRight (pySuffix n).length

/-- Python pathlib with_suffix: replace the suffix (or append when there is
none). -/
def pyWithSuffix (n suf : String) : String := pyStem n ++ suf

/-- ASCII lower-casing of one character, as Python str.lower() acts on the
ASCII extensions relevant here. -/
def toLowerChar (c : Char) : Char :=
  if 65 ≤ c.toNat ∧ c.toNat ≤ 90 then Char.ofNat (c.toNat + 32) else c

/-- ASCII lower-casing of a string. -/
def strLower (s : String) : String := String.mk (s.data.map toLowerChar)

/-! ## preprocessing.py -/

/-- Record of one cv2.imwrite call made by save_image: target folder, final
file name, container format chosen by the extension, and JPEG quality flag
when one is passed. -/
structure SavedFile where
  folder : String
  name : String
  fmt : String
  quality : Option Nat
deriving DecidableEq, Repr

/-- File-name adjustment of save_image (preprocessing.py lines 28-39):
single-channel arrays are forced to a .png name, multi-channel arrays to a
.jpg name unless the extension already is .jpg or .jpeg (extension compared
lower-cased). -/
def savedName (name : String) (single : Bool) : String :=
  let ext := strLower (pySuffix name)
  if single then
    if ext ≠ ".png" then pyWithSuffix name ".png" else name
  else
    if ext ≠ ".jpg" ∧ ext ≠ ".jpeg" then pyWithSuffix name ".jpg" else name

/-- save_image: single-channel images are written as PNG (no quality flag,
lossless); multi-channel images as JPEG with quality 95. -/
def saveImage (folder name : String) (single : Bool) : SavedFile :=
  if single then
    { folder := folder, name := savedName name true, fmt := "PNG", quality := none }
  else
    { folder := folder, name := savedName name false, fmt := "JPEG", quality := some 95 }

/-- preprocess_and_save_all_stages: the seven save_image calls in source
order.  img_eq, img_blur, img_sharp and final_bgr are 3-channel; edges,
median and morph_clean are 2-dimensional single-channel arrays. -/
def preprocessAndSaveAllStages (name : String) : List SavedFile :=
  let stem := pyStem name
  [ saveImage "histogram_equalized" name false,
    saveImage "gaussian_blur" name false,
    saveImage "sharpened" name false,
    saveImage "edges" (stem ++ "_edges.png") true,
    saveImage "median_filtered" (stem ++ "_median.png") true,
    saveImage "morphology" (stem ++ "_morph.png") true,
    saveImage "final_processed" name false ]

/-- load_image (preprocessing.py lines 9-26).  Image.open may fail (decode
error propagates); the whole EXIF-orientation block runs inside
try/except Exception: pass, so any failure there leaves the un-rotated image
in place; the colour conversion runs after the try block. -/
def loadImage {Img : Type} (toBGR : Img → Img)
    (decode : Except String Img) (exifStep : Img → Except String Img) :
    Except String Img :=
  match decode with
  | .error e => .error e
  | .ok img =>
    match exifStep img with
    | .ok rotated => .ok (toBGR rotated)
    | .error _ => .ok (toBGR img)

/-! ## app.py : oracle world -/

/-- Oracle for everything process_generator observes outside its own control
flow: the listing of the run images directory, the outcome of
preprocess_and_save_all_stages per image (some message = the exception it
raised), the listing of each out/<folder> directory (none = missing), the
captured non-empty output lines and the exit code of the k-th launched
external command, the entries of out/sparse after the mapper (name paired
with is_dir), and whether dense/fused.ply exists after fusion. -/
structure World where
  runsRoot : String
  runId : String
  images : List String
  preprocessFail : String → Option String
  stageDir : String → Option (List String)
  cmdLines : Nat → List String
  cmdRc : Nat → Int
  sparseList : List (String × Bool)
  fusedPlyExists : Bool

/-- Byte-wise lexicographic comparison of char lists, as Python compares
strings. -/
def charListLe : List Char → List Char → Bool
  | [], _ => true
  | _ :: _, [] => false
  | a :: as, b :: bs =>
    if a.toNat < b.toNat then true
    else if b.toNat < a.toNat then false
    else charListLe as bs

/-- Python string comparison a <= b. -/
def strLe (a b : String) : Bool := charListLe a.data b.data

/-- Insert into an ascending list. -/
def insertSorted (x : String) : List String → List String
  | [] => [x]
  | y :: ys => if strLe x y then x :: y :: ys else y :: insertSorted x ys

/-- Ascending sort of file names, modelling Python sorted(). -/
def sortStrings : List String → List String
  | [] => []
  | x :: xs => insertSorted x (sortStrings xs)

/-- Filter of app.py line 190: suffix lower-cased in (.jpg, .jpeg, .png). -/
def allowedImageSuffix (n : String) : Bool :=
  let s := strLower (pySuffix n)
  s == ".jpg" || s == ".jpeg" || s == ".png"

/-- image_paths of app.py line 190: accepted images of the run, sorted. -/
def sortedImages (w : World) : List String :=
  sortStrings (w.images.filter allowedImageSuffix)

/-! ## app.py : per-image preprocessing loop -/

/-- Per-image success event (app.py lines 200-205).  The progress value
int(2 + 18 * (i / total)) is modelled with exact natural division: for the
operand sizes involved the float computation agrees with the rational value
and int() truncation of a nonnegative value is floor. -/
def preprocImageEv (runId p : String) (i total : Nat) : Event :=
  { type := some "preprocess_image",
    message := some ("Preprocessed " ++ p ++ " (" ++ toString i ++ "/" ++ toString total ++ ")"),
    progress := PyVal.int (2 + 18 * i / total),
    image := some ("/runs/" ++ runId ++ "/out/final_processed/" ++ p) }

/-- Events of an all-successful sweep over the given images, i being the
1-based index of the first of them. -/
def perImageEvs (runId : String) (total : Nat) : Nat → List String → List Event
  | _, [] => []
  | i, p :: rest => preprocImageEv runId p i total :: perImageEvs runId total (i + 1) rest

/-- The for-loop of app.py lines 197-208: events yielded, paired with false
when the loop aborted the run on a preprocessing exception. -/
def preprocLoop (w : World) (total : Nat) : Nat → List String → List Event × Bool
  | _, [] => ([], true)
  | i, p :: rest =>
    match w.preprocessFail p with
    | some msg => ([errorEv ("Preprocessing failed: " ++ msg) (PyVal.int 0)], false)
    | none =>
      let r := preprocLoop w total (i + 1) rest
      (preprocImageEv w.runId p i total :: r.1, r.2)

/-! ## app.py : per-stage thumbnail events -/

/-- PREPROCESS_STAGES of app.py lines 30-39. -/
def preprocStages : List (String × String) :=
  [("Original Image", "images"),
   ("Histogram Equalized", "histogram_equalized"),
   ("Gaussian Blur", "gaussian_blur"),
   ("Sharpened", "sharpened"),
   ("Edges (Canny)", "edges"),
   ("Median Filtered", "median_filtered"),
   ("Morphological Cleaned", "morphology"),
   ("Final Processed", "final_processed")]

/-- One stage_done thumbnail event (app.py lines 213-235).  The run images
directory always exists when the generator runs (the route checked it), so
for the "images" folder the listing is the oracle images list. -/
def stageThumbEvent (w : World) (lf : String × String) : Event :=
  let listing : Option (List String) :=
    if lf.2 = "images" then some w.images else w.stageDir lf.2
  let thumbs : List String :=
    match listing with
    | none => []
    | some l =>
      ((sortStrings l).take 200).map (fun nm =>
        if lf.2 = "images" then "/runs/" ++ w.runId ++ "/images/" ++ nm
        else "/runs/" ++ w.runId ++ "/out/" ++ lf.2 ++ "/" ++ nm)
  { type := some "stage_done", group := some "preprocessing",
    stage_name := some (PyVal.str lf.1), stage_key := some lf.2,
    progress := PyVal.int 20, thumbs := some thumbs }

/-- The eight stage_done thumbnail events. -/
def stageThumbEvents (w : World) : List Event :=
  preprocStages.map (stageThumbEvent w)

/-! ## app.py : run_cmd and the COLMAP sequence -/

/-- Truthiness of the colmap_stage_name argument. -/
def pyTruthy : Option PyVal → Bool
  | none => false
  | some (PyVal.int n) => n != 0
  | some (PyVal.str s) => s != ""

/-- Python expression (colmap_stage_name or "command") rendered as str. -/
def pyOrCommand : Option PyVal → String
  | none => "command"
  | some (PyVal.int n) => if n = 0 then "command" else toString n
  | some (PyVal.str s) => if s = "" then "command" else s

/-- Event of shape {"type": "stage_done", "group": "colmap", ...} yielded by
run_cmd on success when a stage name was supplied (app.py line 268). -/
def colmapStageDoneEv (nm : Option PyVal) (pe : PyVal) : Event :=
  { type := some "stage_done", group := some "colmap", stage_name := nm, progress := pe }

/-- run_cmd (app.py lines 254-270) for an invocation whose captured non-empty
output lines and exit code are given: one announcing status at ps, one log
per line, stripped, at ps, then on non-zero exit a single error event carrying
the code, otherwise the optional stage_done at pe followed by the finished
status at pe. -/
def runCmd (cmd : List String) (lines : List String) (rc : Int)
    (ps pe : PyVal) (nm : Option PyVal) : List Event :=
  statusEv ("Running: " ++ String.intercalate " " cmd) ps ::
  (lines.map (fun l => logEv l.trim ps) ++
    (if rc != 0 then
      [errorEv ("Command " ++ String.intercalate " " cmd ++ " exited with code " ++ toString rc) ps]
    else
      (if pyTruthy nm then [colmapStageDoneEv nm pe] else []) ++
      [statusEv (pyOrCommand nm ++ " finished") pe]))

/-- Caller-side error check used after every stage except model conversion:
the run stops when an event with type "error" was yielded. -/
def hasTypeErr (evs : List Event) : Bool :=
  evs.any (fun e => e.type == some "error")

/-- Python str.startswith, by characters. -/
def strStartsWith (s p : String) : Bool := s.data.take p.data.length == p.data

/-- Caller-side check after model conversion (app.py line 328): it looks at
the "stage" key, which run_cmd never sets, so it never fires. -/
def hasStageErr (evs : List Event) : Bool :=
  evs.any (fun e => strStartsWith (e.stage.getD "") "error")

/-- Yield the events of one stage, then continue only when the type-keyed
error check stayed silent. -/
def seqCheck (evs rest : List Event) : List Event :=
  evs ++ (if hasTypeErr evs then [] else rest)

/-- Yield the events of the conversion stage, then continue only when the
stage-keyed error check stayed silent. -/
def seqCheckStage (evs rest : List Event) : List Event :=
  evs ++ (if hasStageErr evs then [] else rest)

/-- First model-discovery pass (app.py lines 290-299): first entry of the
sparse root that is a directory, else fall back to the entry named 0; none
when the fallback entry does not exist. -/
def modelDiscovery (l : List (String × Bool)) : Option String :=
  match (l.filter (fun e => e.2)).head? with
  | some e => some e.1
  | none => if l.any (fun e => e.1 == "0") then some "0" else none

/-- Second model-discovery pass (app.py lines 303-315): re-scan for the first
directory entry, with the same fallback. -/
def modelDiscovery2 (l : List (String × Bool)) : Option String :=
  match l.find? (fun e => e.2) with
  | some e => some e.1
  | none => if l.any (fun e => e.1 == "0") then some "0" else none

/-! Workspace paths of app.py lines 240-249 (BASE_DIR/runs is the runsRoot
oracle string). -/

def outRootP (w : World) : String := w.runsRoot ++ "/" ++ w.runId ++ "/out"

def dbPathP (w : World) : String := outRootP w ++ "/database/database.db"

def imgPathForColmap (w : World) : String := outRootP w ++ "/final_processed"

def sparsePathP (w : World) : String := outRootP w ++ "/sparse"

def densePathP (w : World) : String := outRootP w ++ "/dense"

/-- feature_extractor argument vector (app.py line 273). -/
def feCmd (w : World) : List String :=
  ["colmap", "feature_extractor", "--database_path", dbPathP w,
   "--image_path", imgPathForColmap w]

/-- exhaustive_matcher argument vector (app.py line 279). -/
def emCmd (w : World) : List String :=
  ["colmap", "exhaustive_matcher", "--database_path", dbPathP w]

/-- mapper argument vector (app.py line 285). -/
def mapCmd (w : World) : List String :=
  ["colmap", "mapper", "--database_path", dbPathP w,
   "--image_path", imgPathForColmap w, "--output_path", sparsePathP w]

/-- model_converter argument vector (app.py lines 320-325), m the discovered
model directory name. -/
def convCmd (w : World) (m : String) : List String :=
  ["colmap", "model_converter", "--input_path", sparsePathP w ++ "/" ++ m,
   "--output_path", sparsePathP w ++ "/0_txt", "--output_type", "TXT"]

/-- image_undistorter argument vector (app.py lines 332-338). -/
def undistCmd (w : World) (m : String) : List String :=
  ["colmap", "image_undistorter", "--image_path", imgPathForColmap w,
   "--input_path", sparsePathP w ++ "/" ++ m, "--output_path", densePathP w,
   "--output_type", "COLMAP"]

/-- patch_match_stereo argument vector (app.py lines 344-352). -/
def pmCmd (w : World) : List String :=
  ["colmap", "patch_match_stereo", "--workspace_path", densePathP w,
   "--workspace_format", "COLMAP", "--PatchMatchStereo.max_image_size", "1600",
   "--PatchMatchStereo.num_iterations", "3", "--PatchMatchStereo.num_samples", "10",
   "--PatchMatchStereo.geom_consistency", "true"]

/-- stereo_fusion argument vector (app.py lines 358-364). -/
def fuseCmd (w : World) : List String :=
  ["colmap", "stereo_fusion", "--workspace_path", densePathP w,
   "--workspace_format", "COLMAP", "--input_type", "geometric",
   "--output_path", densePathP w ++ "/fused.ply"]

/-- Terminal success event (app.py line 371). -/
def doneEv (runId : String) : Event :=
  { type := some "done", message := some "Reconstruction complete",
    progress := PyVal.int 100,
    fused_ply := some ("/runs/" ++ runId ++ "/out/dense/fused.ply") }

/-- Events after the fusion command succeeded (app.py lines 369-374). -/
def fusionTail (w : World) : List Event :=
  if w.fusedPlyExists then [doneEv w.runId]
  else [errorEv "fused.ply not found after fusion" (PyVal.int 95)]

/-- Model discovery and the remaining stages (app.py lines 290-374).  The
conversion stage is launched with run_cmd(converter_cmd, "model_converter",
55, 58): positionally that binds progress_start to the string
"model_converter", progress_end to 55 and colmap_stage_name to 58, and its
follow-up check reads the "stage" key. -/
def discoveryAndRest (w : World) : List Event :=
  match modelDiscovery w.sparseList with
  | none => [errorEv "No sparse model found after mapper" (PyVal.int 55)]
  | some _ =>
    match modelDiscovery2 w.sparseList with
    | none => [stageErrorEv "No sparse model found after mapper" (PyVal.int 55)]
    | some m =>
      seqCheckStage
        (runCmd (convCmd w m) (w.cmdLines 3) (w.cmdRc 3)
          (PyVal.str "model_converter") (PyVal.int 55) (some (PyVal.int 58)))
        (seqCheck
          (runCmd (undistCmd w m) (w.cmdLines 4) (w.cmdRc 4)
            (PyVal.int 58) (PyVal.int 65) (some (PyVal.str "Undistortion")))
          (seqCheck
            (runCmd (pmCmd w) (w.cmdLines 5) (w.cmdRc 5)
              (PyVal.int 65) (PyVal.int 85) (some (PyVal.str "Dense & Fusion")))
            (seqCheck
              (runCmd (fuseCmd w) (w.cmdLines 6) (w.cmdRc 6)
                (PyVal.int 85) (PyVal.int 95) (some (PyVal.str "Fusion (dense)")))
              (fusionTail w))))

/-- The COLMAP stage sequence (app.py lines 272-374). -/
def colmapSeq (w : World) : List Event :=
  seqCheck
    (runCmd (feCmd w) (w.cmdLines 0) (w.cmdRc 0)
      (PyVal.int 22) (PyVal.int 30) (some (PyVal.str "Feature Extraction")))
    (seqCheck
      (runCmd (emCmd w) (w.cmdLines 1) (w.cmdRc 1)
        (PyVal.int 30) (PyVal.int 40) (some (PyVal.str "Matching")))
      (seqCheck
        (runCmd (mapCmd w) (w.cmdLines 2) (w.cmdRc 2)
          (PyVal.int 40) (PyVal.int 55) (some (PyVal.str "Sparse Mapping")))
        (discoveryAndRest w)))

/-- process_generator (app.py lines 184-374): the full ordered event stream
of one run. -/
def processGenerator (w : World) : List Event :=
  statusEv "Run queued" (PyVal.int 0) ::
  statusEv "Starting preprocessing..." (PyVal.int 2) ::
  (let paths := sortedImages w
   let total := paths.length
   if total = 0 then [errorEv "No images found" (PyVal.int 0)]
   else
     match preprocLoop w total 1 paths with
     | (evs, false) => evs
     | (evs, true) =>
       evs ++ statusEv "Preprocessing complete" (PyVal.int 20) ::
         (stageThumbEvents w ++
          statusEv "Preparing COLMAP workspace..." (PyVal.int 22) ::
            (if (w.stageDir "final_processed").isSome then colmapSeq w
             else [errorEv "final_processed folder missing" (PyVal.int 0)])))

/-! ## Concrete worlds used as inputs for evaluation theorems -/

/-- A fully successful run: one accepted image a.jpg, no preprocessing
failure, every stage directory present (final_processed present but empty),
every external command silent and exiting 0, the mapper writing sparse/0, and
fused.ply present after fusion. -/
def wBase : World :=
  { runsRoot := "/app/runs", runId := "r1",
    images := ["a.jpg"],
    preprocessFail := fun _ => none,
    stageDir := fun _ => some [],
    cmdLines := fun _ => [],
    cmdRc := fun _ => 0,
    sparseList := [("0", true)],
    fusedPlyExists := true }

/-- Same run, but the fourth launched command (model_converter) exits 1. -/
def wConvFail : World := { wBase with cmdRc := fun i => if i = 3 then 1 else 0 }

/-- Same run with an empty images directory. -/
def wNoImg : World := { wBase with images := [] }

/-- Same run whose single image is a.png. -/
def wPng : World := { wBase with images := ["a.png"] }

/-- Same run, but the sparse-model root is empty after the mapper (no
subdirectory, no entry named 0). -/
def wNoSparse : World := { wBase with sparseList := [] }

/-- Same run with no final_processed directory. -/
def wNoFP : World := { wBase with stageDir := fun _ => none }

/-- Run with three images of which b.jpg (the second in filename order) makes
preprocess_and_save_all_stages raise. -/
def wMidFail : World :=
  { wBase with
    images := ["b.jpg", "a.jpg", "c.jpg"],
    preprocessFail := fun p => if p == "b.jpg" then some "boom" else none }

/-- Observable command launch: run_cmd announces every launched command with
a status message beginning Running: followed by the command line (the first
nine characters of the message). -/
def isLaunchEv (e : Event) : Bool :=
  ((e.message.getD "").data.take 9) == ("Running: ".data)

/-- Conditions under which the run launches the fusion command: some accepted
image, no preprocessing failure, final_processed present, feature extraction,
matching, mapping, undistortion and dense stereo exiting 0 and model
discovery succeeding.  The model-conversion exit code is deliberately absent:
its error check reads a key its events never carry, so its failure does not
stop the run. -/
def reachesFusion (w : World) : Prop :=
  sortedImages w ≠ [] ∧
  (∀ p ∈ sortedImages w, w.preprocessFail p = none) ∧
  (w.stageDir "final_processed").isSome = true ∧
  w.cmdRc 0 = 0 ∧ w.cmdRc 1 = 0 ∧ w.cmdRc 2 = 0 ∧
  (modelDiscovery w.sparseList).isSome = true ∧
  w.cmdRc 4 = 0 ∧ w.cmdRc 5 = 0

/-! ## Helper lemmas -/

theorem takeWhile_append_stop (p : Char → Bool) (pre rest : List Char) (x : Char)
    (hpre : ∀ c ∈ pre, p c = true) (hx : p x = false) :
    (pre ++ x :: rest).takeWhile p = pre := by
  induction pre with
  | nil => simp [List.takeWhile_cons, hx]
  | cons a t ih =>
    have ha : p a = true := hpre a (by simp)
    simp only [List.cons_append, List.takeWhile_cons, ha, if_true]
    rw [ih (fun c hc => hpre c (by simp [hc]))]

theorem pySuffix_of_rev (n : String) (pre rest : List Char)
    (h : n.data.reverse = pre ++ '.' :: rest)
    (hpre : ∀ c ∈ pre, c ≠ '.')
    (hpre0 : pre ≠ []) (hrest : rest ≠ []) :
    pySuffix n = String.mk ('.' :: pre.reverse) := by
  unfold pySuffix
  rw [h]
  have htw : (pre ++ '.' :: rest).takeWhile (fun c => c != '.') = pre := by
    refine takeWhile_append_stop _ pre rest '.' (fun c hc => ?_) (by simp)
    simpa using hpre c hc
  have hlen : (pre ++ '.' :: rest).length = pre.length + (rest.length + 1) := by
    simp [List.length_append]
  simp only [htw, hlen]
  have h1 : ¬ pre.length = pre.length + (rest.length + 1) := by omega
  have h2 : ¬ pre.length = 0 := by
    intro hz
    exact hpre0 (List.eq_nil_of_length_eq_zero hz)
  have h3 : ¬ pre.length = pre.length + (rest.length + 1) - 1 := by
    have : rest.length ≠ 0 := by
      intro hz
      exact hrest (List.eq_nil_of_length_eq_zero hz)
    omega
  rw [if_neg h1, if_neg h2, if_neg h3]

theorem pySuffix_edges (s : String) : pySuffix (s ++ "_edges.png") = ".png" := by
  have h : (s ++ "_edges.png").data.reverse =
      ['g', 'n', 'p'] ++ '.' :: (['s', 'e', 'g', 'd', 'e', '_'] ++ s.data.reverse) := by
    have : (s ++ "_edges.png").data = s.data ++ ("_edges.png").data := by
      simp [String.data_append]
    rw [this, List.reverse_append]
    rfl
  rw [pySuffix_of_rev _ _ _ h (by decide) (by decide) (by simp)]
  decide

theorem pySuffix_median (s : String) : pySuffix (s ++ "_median.png") = ".png" := by
  have h : (s ++ "_median.png").data.reverse =
      ['g', 'n', 'p'] ++ '.' :: (['n', 'a', 'i', 'd', 'e', 'm', '_'] ++ s.data.reverse) := by
    have : (s ++ "_median.png").data = s.data ++ ("_median.png").data := by
      simp [String.data_append]
    rw [this, List.reverse_append]
    rfl
  rw [pySuffix_of_rev _ _ _ h (by decide) (by decide) (by simp)]
  decide

theorem pySuffix_morph (s : String) : pySuffix (s ++ "_morph.png") = ".png" := by
  have h : (s ++ "_morph.png").data.reverse =
      ['g', 'n', 'p'] ++ '.' :: (['h', 'p', 'r', 'o', 'm', '_'] ++ s.data.reverse) := by
    have : (s ++ "_morph.png").data = s.data ++ ("_morph.png").data := by
      simp [String.data_append]
    rw [this, List.reverse_append]
    rfl
  rw [pySuffix_of_rev _ _ _ h (by decide) (by decide) (by simp)]
  decide

theorem savedName_single_of_png (nm : String) (h : pySuffix nm = ".png") :
    savedName nm true = nm := by
  unfold savedName
  rw [h]
  have hlower : strLower ".png" = ".png" := by decide
  simp [hlower]

/-! ## Claim theorems -/

/-- C1: the claim states that every error is terminal and exactly one
terminal event ends the stream.  In the run wConvFail the model_converter
command exits 1: the stream contains its error event at index 23, yet 10
further events follow and the stream ends with a second terminal event of
type done, because the check after the conversion stage reads a stage key
that run_cmd events never carry. -/
theorem C1_converter_error_not_terminal :
    ((processGenerator wConvFail).get? 23).map Event.type = some (some "error")
    ∧ (processGenerator wConvFail).length = 34
    ∧ ((processGenerator wConvFail).getLast?).map Event.type = some (some "done")
    ∧ (processGenerator wConvFail).countP (fun e => e.type == some "error") = 1 := by
  decide

/-- C2: the claim states that all progress values are numbers in 0..100 and
non-decreasing.  In the fully successful run wBase the status event of the
conversion stage carries the string model_converter as its progress value
(run_cmd called with misplaced positional arguments), and in the
zero-image run the stream goes from progress 2 to an error at progress 0. -/
theorem C2_progress_not_numeric_monotone :
    ((processGenerator wBase).get? 22).map Event.progress = some (PyVal.str "model_converter")
    ∧ processGenerator wNoImg =
        [statusEv "Run queued" (PyVal.int 0),
         statusEv "Starting preprocessing..." (PyVal.int 2),
         errorEv "No images found" (PyVal.int 0)] := by
  decide

/-- C7: the claim states the per-image event reference resolves to the
persisted final-stage artifact.  For the run wPng with single image a.png
the event references final_processed/a.png while save_image persists
final_processed/a.jpg (non-JPEG extensions are rewritten), and no persisted
artifact of that image is named a.png; the progress part of the claim holds:
int(2 + 18 * 1/1) = 20 is carried by the event. -/
theorem C7_reference_names_missing_file :
    (processGenerator wPng).get? 2 =
      some { type := some "preprocess_image",
             message := some "Preprocessed a.png (1/1)",
             progress := PyVal.int 20,
             image := some "/runs/r1/out/final_processed/a.png" }
    ∧ (preprocessAndSaveAllStages "a.png").getLast? =
        some { folder := "final_processed", name := "a.jpg", fmt := "JPEG", quality := some 95 }
    ∧ (preprocessAndSaveAllStages "a.png").countP (fun f => f.name == "a.png") = 0 := by
  decide

/-- C10: a failure in the EXIF-orientation block of load_image is swallowed
by the bare except and the function returns the decoded, un-rotated image
converted to BGR, never an error. -/
theorem C10_exif_failure_swallowed {Img : Type} (toBGR : Img → Img) (img : Img)
    (exifStep : Img → Except String Img) (emsg : String)
    (h : exifStep img = Except.error emsg) :
    loadImage toBGR (Except.ok img) exifStep = Except.ok (toBGR img) := by
  simp [loadImage, h]

/-- Witness for C10 at a concrete instantiation. -/
theorem C10_exif_failure_swallowed_witness :
    ((fun _ : Nat => (Except.error "bad exif" : Except String Nat)) 0 = Except.error "bad exif")
    ∧ loadImage Nat.succ (Except.ok 0) (fun _ => Except.error "bad exif") = Except.ok 1 :=
  ⟨rfl, C10_exif_failure_swallowed Nat.succ 0 (fun _ => Except.error "bad exif") "bad exif" rfl⟩

/-- C3: model discovery takes the first subdirectory of the sparse root (for
subdirectories 1 and 2 in listing order it selects 1), falls back to the
entry named 0 when no subdirectory exists, and when that entry is also
absent the run ends with the no-sparse-model error before the conversion
command is launched: in wNoSparse only the three commands already run
(feature extraction, matching, mapper) were announced. -/
theorem C3_model_discovery_policy :
    modelDiscovery [("1", true), ("2", true)] = some "1"
    ∧ (∀ l : List (String × Bool), l.filter (fun e => e.2) = [] →
        l.any (fun e => e.1 == "0") = true → modelDiscovery l = some "0")
    ∧ (∀ l : List (String × Bool), l.filter (fun e => e.2) = [] →
        l.any (fun e => e.1 == "0") = false → modelDiscovery l = none)
    ∧ (processGenerator wNoSparse).getLast? =
        some (errorEv "No sparse model found after mapper" (PyVal.int 55))
    ∧ (processGenerator wNoSparse).countP isLaunchEv = 3 := by
  refine ⟨by decide, ?_, ?_, by decide, by decide⟩
  · intro l h1 h2
    simp [modelDiscovery, h1, h2]
  · intro l h1 h2
    simp [modelDiscovery, h1, h2]

/-- Witness for C3 discharging the fallback hypotheses at the listing with a
single plain file named 0. -/
theorem C3_model_discovery_policy_witness :
    ([(("0" : String), false)].filter (fun e => e.2) = []
     ∧ [(("0" : String), false)].any (fun e => e.1 == "0") = true)
    ∧ modelDiscovery [("0", false)] = some "0" :=
  ⟨⟨by decide, by decide⟩,
   C3_model_discovery_policy.2.1 [("0", false)] (by decide) (by decide)⟩

/-- C8: for every input file name, the three single-channel stage outputs
(edges, median, morphology) are saved under a stage-suffixed name ending in
.png in PNG format with no quality flag, regardless of the input extension,
while the four multi-channel stage outputs keep the original file name,
re-extensioned to .jpg with JPEG quality 95 exactly when the lower-cased
input extension is neither .jpg nor .jpeg. -/
theorem C8_output_naming (nm : String) :
    (preprocessAndSaveAllStages nm).filter
        (fun f => f.folder == "edges" || f.folder == "median_filtered" || f.folder == "morphology") =
      [{ folder := "edges", name := pyStem nm ++ "_edges.png", fmt := "PNG", quality := none },
       { folder := "median_filtered", name := pyStem nm ++ "_median.png", fmt := "PNG", quality := none },
       { folder := "morphology", name := pyStem nm ++ "_morph.png", fmt := "PNG", quality := none }]
    ∧ (preprocessAndSaveAllStages nm).filter
        (fun f => !(f.folder == "edges" || f.folder == "median_filtered" || f.folder == "morphology")) =
      [{ folder := "histogram_equalized", name := savedName nm false, fmt := "JPEG", quality := some 95 },
       { folder := "gaussian_blur", name := savedName nm false, fmt := "JPEG", quality := some 95 },
       { folder := "sharpened", name := savedName nm false, fmt := "JPEG", quality := some 95 },
       { folder := "final_processed", name := savedName nm false, fmt := "JPEG", quality := some 95 }]
    ∧ savedName nm false =
        (if strLower (pySuffix nm) = ".jpg" ∨ strLower (pySuffix nm) = ".jpeg"
         then nm else pyWithSuffix nm ".jpg") := by
  have he := savedName_single_of_png (pyStem nm ++ "_edges.png") (pySuffix_edges (pyStem nm))
  have hm := savedName_single_of_png (pyStem nm ++ "_median.png") (pySuffix_median (pyStem nm))
  have ho := savedName_single_of_png (pyStem nm ++ "_morph.png") (pySuffix_morph (pyStem nm))
  refine ⟨?_, ?_, ?_⟩
  · simp [preprocessAndSaveAllStages, saveImage, List.filter, he, hm, ho]
  · simp [preprocessAndSaveAllStages, saveImage, List.filter]
  · unfold savedName
    by_cases h1 : strLower (pySuffix nm) = ".jpg"
    · simp [h1]
    · by_cases h2 : strLower (pySuffix nm) = ".jpeg"
      · simp [h1, h2]
      · simp [h1, h2]

/-- C9: for every external command invocation, run_cmd yields one announcing
status event at the start progress, then one log event per captured output
line in order, each pinned at the start progress, then on non-zero exit a
single error event carrying the exit code at the start progress, and on zero
exit the stage-complete event at the end progress (when a stage name was
supplied) followed by the finished status at the end progress. -/
theorem C9_run_cmd_event_sequence (cmd lines : List String) (rc : Int)
    (ps pe : PyVal) (nm : Option PyVal) :
    (runCmd cmd lines rc ps pe nm).head? =
      some (statusEv ("Running: " ++ String.intercalate " " cmd) ps)
    ∧ ((runCmd cmd lines rc ps pe nm).drop 1).take lines.length =
        lines.map (fun l => logEv l.trim ps)
    ∧ (rc ≠ 0 → (runCmd cmd lines rc ps pe nm).drop (lines.length + 1) =
        [errorEv ("Command " ++ String.intercalate " " cmd ++ " exited with code " ++ toString rc) ps])
    ∧ (rc = 0 → pyTruthy nm = true → (runCmd cmd lines rc ps pe nm).drop (lines.length + 1) =
        [colmapStageDoneEv nm pe, statusEv (pyOrCommand nm ++ " finished") pe])
    ∧ (rc = 0 → pyTruthy nm = false → (runCmd cmd lines rc ps pe nm).drop (lines.length + 1) =
        [statusEv (pyOrCommand nm ++ " finished") pe]) := by
  have hdrop : ∀ tail : List Event,
      (statusEv ("Running: " ++ String.intercalate " " cmd) ps ::
        (lines.map (fun l => logEv l.trim ps) ++ tail)).drop (lines.length + 1) = tail := by
    intro tail
    rw [List.drop_succ_cons]
    exact List.drop_left' (by simp)
  refine ⟨rfl, ?_, ?_, ?_, ?_⟩
  · exact List.take_left' (by simp)
  · intro h
    have hb : (rc != 0) = true := by simp [bne_iff_ne, h]
    unfold runCmd
    rw [hb, if_pos rfl]
    exact hdrop _
  · intro h ht
    have hb : (rc != 0) = false := by simp [bne_iff_ne, h]
    unfold runCmd
    rw [hb, ht, if_neg Bool.false_ne_true, if_pos rfl]
    exact hdrop _
  · intro h ht
    have hb : (rc != 0) = false := by simp [bne_iff_ne, h]
    unfold runCmd
    rw [hb, ht, if_neg Bool.false_ne_true, if_neg Bool.false_ne_true, List.nil_append]
    exact hdrop _

/-- Witness for C9 at a concrete failing invocation and a concrete
successful one. -/
theorem C9_run_cmd_event_sequence_witness :
    ((1 : Int) ≠ 0
     ∧ (runCmd ["colmap", "mapper"] ["ln1", "ln2"] 1 (PyVal.int 40) (PyVal.int 55)
          (some (PyVal.str "Sparse Mapping"))).drop (["ln1", "ln2"].length + 1) =
        [errorEv ("Command " ++ String.intercalate " " ["colmap", "mapper"] ++
          " exited with code " ++ toString (1 : Int)) (PyVal.int 40)])
    ∧ ((0 : Int) = 0 ∧ pyTruthy (some (PyVal.str "Matching")) = true
       ∧ (runCmd ["colmap"] [] 0 (PyVal.int 30) (PyVal.int 40)
            (some (PyVal.str "Matching"))).drop (([] : List String).length + 1) =
          [colmapStageDoneEv (some (PyVal.str "Matching")) (PyVal.int 40),
           statusEv (pyOrCommand (some (PyVal.str "Matching")) ++ " finished") (PyVal.int 40)]) :=
  ⟨⟨by decide,
    (C9_run_cmd_event_sequence ["colmap", "mapper"] ["ln1", "ln2"] 1 (PyVal.int 40)
      (PyVal.int 55) (some (PyVal.str "Sparse Mapping"))).2.2.1 (by decide)⟩,
   ⟨rfl, by decide,
    (C9_run_cmd_event_sequence ["colmap"] [] 0 (PyVal.int 30) (PyVal.int 40)
      (some (PyVal.str "Matching"))).2.2.2.1 rfl (by decide)⟩⟩

/-! ## Structural lemmas about run_cmd and the generator -/

theorem hasTypeErr_runCmd (cmd lines : List String) (rc : Int)
    (ps pe : PyVal) (nm : Option PyVal) :
    hasTypeErr (runCmd cmd lines rc ps pe nm) = (rc != 0) := by
  cases hrc : (rc != 0) with
  | true =>
    cases htr : pyTruthy nm <;>
      simp [runCmd, hasTypeErr, hrc, htr, statusEv, logEv, errorEv, colmapStageDoneEv,
        List.any_append, List.any_map, Function.comp]
  | false =>
    cases htr : pyTruthy nm <;>
      simp [runCmd, hasTypeErr, hrc, htr, statusEv, logEv, errorEv, colmapStageDoneEv,
        List.any_append, List.any_map, Function.comp]

theorem hasStageErr_runCmd (cmd lines : List String) (rc : Int)
    (ps pe : PyVal) (nm : Option PyVal) :
    hasStageErr (runCmd cmd lines rc ps pe nm) = false := by
  cases hrc : (rc != 0) with
  | true =>
    cases htr : pyTruthy nm <;>
      simp [runCmd, hasStageErr, hrc, htr, statusEv, logEv, errorEv, colmapStageDoneEv,
        List.any_append, List.any_map, Function.comp, strStartsWith]
  | false =>
    cases htr : pyTruthy nm <;>
      simp [runCmd, hasStageErr, hrc, htr, statusEv, logEv, errorEv, colmapStageDoneEv,
        List.any_append, List.any_map, Function.comp, strStartsWith]

theorem runCmd_ne_nil (cmd lines : List String) (rc : Int)
    (ps pe : PyVal) (nm : Option PyVal) :
    runCmd cmd lines rc ps pe nm ≠ [] := by
  simp [runCmd]

theorem seqCheck_no (evs rest : List Event) (h : hasTypeErr evs = false) :
    seqCheck evs rest = evs ++ rest := by
  simp [seqCheck, h]

theorem seqCheck_err (evs rest : List Event) (h : hasTypeErr evs = true) :
    seqCheck evs rest = evs := by
  simp [seqCheck, h]

theorem seqCheckStage_no (evs rest : List Event) (h : hasStageErr evs = false) :
    seqCheckStage evs rest = evs ++ rest := by
  simp [seqCheckStage, h]

theorem find?_eq_head?_filter {α : Type} (p : α → Bool) (l : List α) :
    l.find? p = (l.filter p).head? := by
  induction l with
  | nil => rfl
  | cons a t ih =>
    cases h : p a with
    | true =>
      rw [List.find?_cons_of_pos _ h, List.filter_cons_of_pos h]
      rfl
    | false =>
      rw [List.find?_cons_of_neg _ (by simp [h]), List.filter_cons_of_neg (by simp [h])]
      exact ih

theorem modelDiscovery2_eq (l : List (String × Bool)) :
    modelDiscovery2 l = modelDiscovery l := by
  unfold modelDiscovery modelDiscovery2
  rw [find?_eq_head?_filter]

theorem runCmd_getLast_err (cmd lines : List String) (rc : Int)
    (ps pe : PyVal) (nm : Option PyVal) (hb : (rc != 0) = true) :
    (runCmd cmd lines rc ps pe nm).getLast? =
      some (errorEv ("Command " ++ String.intercalate " " cmd ++
        " exited with code " ++ toString rc) ps) := by
  unfold runCmd
  rw [hb, if_pos rfl, ← List.cons_append, List.getLast?_concat]

theorem preprocLoop_ok (w : World) (total : Nat) :
    ∀ (paths : List String) (i : Nat), (∀ p ∈ paths, w.preprocessFail p = none) →
    preprocLoop w total i paths = (perImageEvs w.runId total i paths, true) := by
  intro paths
  induction paths with
  | nil => intro i _; rfl
  | cons p rest ih =>
    intro i h
    have hp : w.preprocessFail p = none := h p (by simp)
    simp [preprocLoop, perImageEvs, hp, ih (i + 1) (fun q hq => h q (by simp [hq]))]

theorem preprocLoop_split (w : World) (total : Nat) (bad msg : String)
    (rest : List String) (hbad : w.preprocessFail bad = some msg) :
    ∀ (pre : List String) (i : Nat), (∀ p ∈ pre, w.preprocessFail p = none) →
    preprocLoop w total i (pre ++ bad :: rest) =
      (perImageEvs w.runId total i pre ++
        [errorEv ("Preprocessing failed: " ++ msg) (PyVal.int 0)], false) := by
  intro pre
  induction pre with
  | nil =>
    intro i _
    simp [preprocLoop, hbad, perImageEvs]
  | cons p t ih =>
    intro i h
    have hp : w.preprocessFail p = none := h p (by simp)
    simp [preprocLoop, perImageEvs, hp, ih (i + 1) (fun q hq => h q (by simp [hq]))]

theorem perImageEvs_shape (runId : String) (total : Nat) :
    ∀ (paths : List String) (i : Nat) (e : Event), e ∈ perImageEvs runId total i paths →
      ∃ p j, e = preprocImageEv runId p j total := by
  intro paths
  induction paths with
  | nil => intro i e he; cases he
  | cons p t ih =>
    intro i e he
    rcases List.mem_cons.1 he with h | h
    · exact ⟨p, i, h⟩
    · exact ih (i + 1) e h

theorem stageThumbEvents_shape (w : World) (e : Event) (he : e ∈ stageThumbEvents w) :
    e.type = some "stage_done" ∧ e.group = some "preprocessing" := by
  rcases List.mem_map.1 he with ⟨lf, _, rfl⟩
  exact ⟨rfl, rfl⟩

theorem processGenerator_colmap_front (w : World)
    (h1 : sortedImages w ≠ [])
    (h2 : ∀ p ∈ sortedImages w, w.preprocessFail p = none)
    (h3 : (w.stageDir "final_processed").isSome = true) :
    processGenerator w =
      (statusEv "Run queued" (PyVal.int 0) ::
       statusEv "Starting preprocessing..." (PyVal.int 2) ::
        (perImageEvs w.runId (sortedImages w).length 1 (sortedImages w) ++
         statusEv "Preprocessing complete" (PyVal.int 20) ::
          (stageThumbEvents w ++
           [statusEv "Preparing COLMAP workspace..." (PyVal.int 22)]))) ++ colmapSeq w := by
  have hlen : ¬ (sortedImages w).length = 0 := by
    simpa [List.length_eq_zero] using h1
  simp only [processGenerator]
  rw [if_neg hlen, preprocLoop_ok w (sortedImages w).length (sortedImages w) 1 h2, h3,
    if_pos rfl]
  simp [List.append_assoc]

theorem processGenerator_fusion_form (w : World) (h : reachesFusion w) :
    ∃ pfx : List Event, processGenerator w =
      pfx ++ seqCheck
        (runCmd (fuseCmd w) (w.cmdLines 6) (w.cmdRc 6)
          (PyVal.int 85) (PyVal.int 95) (some (PyVal.str "Fusion (dense)")))
        (fusionTail w) := by
  obtain ⟨h1, h2, h3, h4, h5, h6, h7, h8, h9⟩ := h
  have hp := processGenerator_colmap_front w h1 h2 h3
  obtain ⟨m, hm⟩ := Option.isSome_iff_exists.1 h7
  rw [colmapSeq] at hp
  rw [seqCheck_no _ _ (by rw [hasTypeErr_runCmd]; simp [h4])] at hp
  rw [seqCheck_no _ _ (by rw [hasTypeErr_runCmd]; simp [h5])] at hp
  rw [seqCheck_no _ _ (by rw [hasTypeErr_runCmd]; simp [h6])] at hp
  rw [discoveryAndRest, hm, modelDiscovery2_eq, hm] at hp
  dsimp only at hp
  rw [seqCheckStage_no _ _ (hasStageErr_runCmd _ _ _ _ _ _)] at hp
  rw [seqCheck_no _ _ (by rw [hasTypeErr_runCmd]; simp [h8])] at hp
  rw [seqCheck_no _ _ (by rw [hasTypeErr_runCmd]; simp [h9])] at hp
  rw [← List.append_assoc, ← List.append_assoc, ← List.append_assoc, ← List.append_assoc,
    ← List.append_assoc, ← List.append_assoc] at hp
  exact ⟨_, hp⟩

/-- C4: given that the run reaches the fusion stage (reachesFusion), the
stream ends with the terminal success event if and only if the fusion
command exits 0 and dense/fused.ply exists afterwards; with exit code 0 but
the artifact absent the stream ends with the fused.ply-not-found error, not
success.  reachesFusion deliberately places no condition on the
model-converter exit code: its failure does not stop the run. -/
theorem C4_success_iff_fusion_ok_and_artifact (w : World) (h : reachesFusion w) :
    ((processGenerator w).getLast? = some (doneEv w.runId) ↔
      (w.cmdRc 6 = 0 ∧ w.fusedPlyExists = true))
    ∧ (w.cmdRc 6 = 0 → w.fusedPlyExists = false →
        (processGenerator w).getLast? =
          some (errorEv "fused.ply not found after fusion" (PyVal.int 95))) := by
  obtain ⟨pfx, hp⟩ := processGenerator_fusion_form w h
  by_cases hrc : w.cmdRc 6 = 0
  · have hfe : hasTypeErr (runCmd (fuseCmd w) (w.cmdLines 6) (w.cmdRc 6)
        (PyVal.int 85) (PyVal.int 95) (some (PyVal.str "Fusion (dense)"))) = false := by
      rw [hasTypeErr_runCmd]
      simp [hrc]
    rw [seqCheck_no _ _ hfe] at hp
    by_cases hfp : w.fusedPlyExists = true
    · have hft : fusionTail w = [doneEv w.runId] := by simp [fusionTail, hfp]
      rw [hft] at hp
      have hlast : (processGenerator w).getLast? = some (doneEv w.runId) := by
        rw [hp, ← List.append_assoc, List.getLast?_concat]
      exact ⟨⟨fun _ => ⟨hrc, hfp⟩, fun _ => hlast⟩,
        fun _ hff => by rw [hfp] at hff; cases hff⟩
    · have hfp2 : w.fusedPlyExists = false := by
        cases hb : w.fusedPlyExists
        · rfl
        · exact absurd hb hfp
      have hft : fusionTail w =
          [errorEv "fused.ply not found after fusion" (PyVal.int 95)] := by
        simp [fusionTail, hfp2]
      rw [hft] at hp
      have hlast : (processGenerator w).getLast? =
          some (errorEv "fused.ply not found after fusion" (PyVal.int 95)) := by
        rw [hp, ← List.append_assoc, List.getLast?_concat]
      refine ⟨⟨fun hd => ?_, fun hx => absurd hx.2 hfp⟩, fun _ _ => hlast⟩
      rw [hlast] at hd
      have h2 := Option.some.inj hd
      simp [errorEv, doneEv] at h2
  · have hfe : hasTypeErr (runCmd (fuseCmd w) (w.cmdLines 6) (w.cmdRc 6)
        (PyVal.int 85) (PyVal.int 95) (some (PyVal.str "Fusion (dense)"))) = true := by
      rw [hasTypeErr_runCmd]
      simp [bne_iff_ne, hrc]
    rw [seqCheck_err _ _ hfe] at hp
    have hlast : (processGenerator w).getLast? =
        some (errorEv ("Command " ++ String.intercalate " " (fuseCmd w) ++
          " exited with code " ++ toString (w.cmdRc 6)) (PyVal.int 85)) := by
      rw [hp, List.getLast?_append_of_ne_nil _ (runCmd_ne_nil _ _ _ _ _ _),
        runCmd_getLast_err _ _ _ _ _ _ (by simp [bne_iff_ne, hrc])]
    refine ⟨⟨fun hd => ?_, fun hx => absurd hx.1 hrc⟩, fun h0 _ => absurd h0 hrc⟩
    rw [hlast] at hd
    have h2 := Option.some.inj hd
    simp [errorEv, doneEv] at h2

/-- Witness for C4 at the fully successful concrete run. -/
theorem C4_success_iff_fusion_ok_and_artifact_witness :
    reachesFusion wBase ∧ (processGenerator wBase).getLast? = some (doneEv "r1") := by
  have hrf : reachesFusion wBase := by
    unfold reachesFusion
    refine ⟨by decide, by decide, by decide, rfl, rfl, rfl, by decide, rfl, rfl⟩
  exact ⟨hrf, ((C4_success_iff_fusion_ok_and_artifact wBase hrf).1).mpr ⟨rfl, rfl⟩⟩

theorem perImageEvs_countP (runId : String) (total : Nat) :
    ∀ (paths : List String) (i : Nat),
      (perImageEvs runId total i paths).countP
        (fun e => e.type == some "preprocess_image") = paths.length := by
  intro paths
  induction paths with
  | nil => intro i; rfl
  | cons p t ih =>
    intro i
    simp [perImageEvs, List.countP_cons, preprocImageEv, ih (i + 1)]

/-- C5 counterexample: in wBase the final_processed directory exists but is
empty, yet no precondition error is raised: all seven external commands are
launched and the run ends in success with no error event, so emptiness of
the directory is not checked, contrary to the claim. -/
theorem C5_empty_final_dir_not_rejected :
    wBase.stageDir "final_processed" = some []
    ∧ (processGenerator wBase).countP isLaunchEv = 7
    ∧ ((processGenerator wBase).getLast?).map Event.type = some (some "done")
    ∧ (processGenerator wBase).countP (fun e => e.type == some "error") = 0 := by
  decide

/-- C5 amended: before any external reconstruction command runs the
orchestrator checks only that the final-stage output directory exists; its
absence yields the terminal precondition error as the last event, and the
full stream contains no command events at all (the enumerated events are the
two opening statuses, the per-image events, the completion status, the eight
thumbnail events, the workspace status and the error; in particular no log,
no colmap-group and no terminal-success event occurs). -/
theorem C5_missing_final_dir_aborts (w : World)
    (h1 : sortedImages w ≠ [])
    (h2 : ∀ p ∈ sortedImages w, w.preprocessFail p = none)
    (h3 : w.stageDir "final_processed" = none) :
    processGenerator w =
      statusEv "Run queued" (PyVal.int 0) ::
      statusEv "Starting preprocessing..." (PyVal.int 2) ::
        (perImageEvs w.runId (sortedImages w).length 1 (sortedImages w) ++
         statusEv "Preprocessing complete" (PyVal.int 20) ::
          (stageThumbEvents w ++
           [statusEv "Preparing COLMAP workspace..." (PyVal.int 22),
            errorEv "final_processed folder missing" (PyVal.int 0)]))
    ∧ (processGenerator w).getLast? =
        some (errorEv "final_processed folder missing" (PyVal.int 0))
    ∧ (∀ e ∈ processGenerator w,
        e.type ≠ some "log" ∧ e.group ≠ some "colmap" ∧ e.type ≠ some "done") := by
  have hlen : ¬ (sortedImages w).length = 0 := by
    simpa [List.length_eq_zero] using h1
  have hsh : processGenerator w =
      statusEv "Run queued" (PyVal.int 0) ::
      statusEv "Starting preprocessing..." (PyVal.int 2) ::
        (perImageEvs w.runId (sortedImages w).length 1 (sortedImages w) ++
         statusEv "Preprocessing complete" (PyVal.int 20) ::
          (stageThumbEvents w ++
           [statusEv "Preparing COLMAP workspace..." (PyVal.int 22),
            errorEv "final_processed folder missing" (PyVal.int 0)])) := by
    simp only [processGenerator]
    rw [if_neg hlen, preprocLoop_ok w (sortedImages w).length (sortedImages w) 1 h2, h3]
    dsimp only
    simp [List.append_assoc]
  refine ⟨hsh, ?_, ?_⟩
  · rw [hsh]
    have hre : statusEv "Run queued" (PyVal.int 0) ::
        statusEv "Starting preprocessing..." (PyVal.int 2) ::
          (perImageEvs w.runId (sortedImages w).length 1 (sortedImages w) ++
           statusEv "Preprocessing complete" (PyVal.int 20) ::
            (stageThumbEvents w ++
             [statusEv "Preparing COLMAP workspace..." (PyVal.int 22),
              errorEv "final_processed folder missing" (PyVal.int 0)])) =
        (statusEv "Run queued" (PyVal.int 0) ::
         statusEv "Starting preprocessing..." (PyVal.int 2) ::
          (perImageEvs w.runId (sortedImages w).length 1 (sortedImages w) ++
           statusEv "Preprocessing complete" (PyVal.int 20) ::
            (stageThumbEvents w ++
             [statusEv "Preparing COLMAP workspace..." (PyVal.int 22)]))) ++
        [errorEv "final_processed folder missing" (PyVal.int 0)] := by
      simp [List.append_assoc]
    rw [hre, List.getLast?_concat]
  · intro e he
    rw [hsh] at he
    simp only [List.mem_cons, List.mem_append, List.mem_singleton, List.not_mem_nil,
      or_false] at he
    rcases he with rfl | rfl | hpi | rfl | hth | rfl | rfl
    · exact ⟨by decide, by decide, by decide⟩
    · exact ⟨by decide, by decide, by decide⟩
    · obtain ⟨p, j, rfl⟩ := perImageEvs_shape w.runId (sortedImages w).length
        (sortedImages w) 1 e hpi
      exact ⟨by simp [preprocImageEv], by simp [preprocImageEv], by simp [preprocImageEv]⟩
    · exact ⟨by decide, by decide, by decide⟩
    · have hf := stageThumbEvents_shape w e hth
      refine ⟨?_, ?_, ?_⟩
      · rw [hf.1]; simp
      · rw [hf.2]; simp
      · rw [hf.1]; simp
    · exact ⟨by decide, by decide, by decide⟩
    · exact ⟨by decide, by decide, by decide⟩

/-- Witness for the amended C5 at the concrete run without the
final_processed directory. -/
theorem C5_missing_final_dir_aborts_witness :
    (sortedImages wNoFP ≠ [] ∧ wNoFP.stageDir "final_processed" = none)
    ∧ (processGenerator wNoFP).getLast? =
        some (errorEv "final_processed folder missing" (PyVal.int 0)) :=
  ⟨⟨by decide, rfl⟩,
   (C5_missing_final_dir_aborts wNoFP (by decide) (by decide) rfl).2.1⟩

/-- C6: when the k-th image in processing order is the first whose
preprocessing raises, the stream is exactly the two opening statuses, one
per-image event for each of the k-1 earlier images, and the terminal
preprocessing error as the last event; no stage-complete event, no
reconstruction-group event, no log and no terminal-success event is ever
emitted. -/
theorem C6_first_failure_aborts_run (w : World) (pre rest : List String)
    (bad msg : String)
    (hsplit : sortedImages w = pre ++ bad :: rest)
    (hok : ∀ p ∈ pre, w.preprocessFail p = none)
    (hbad : w.preprocessFail bad = some msg) :
    processGenerator w =
      statusEv "Run queued" (PyVal.int 0) ::
      statusEv "Starting preprocessing..." (PyVal.int 2) ::
        (perImageEvs w.runId (sortedImages w).length 1 pre ++
         [errorEv ("Preprocessing failed: " ++ msg) (PyVal.int 0)])
    ∧ (processGenerator w).countP (fun e => e.type == some "preprocess_image") = pre.length
    ∧ (processGenerator w).getLast? =
        some (errorEv ("Preprocessing failed: " ++ msg) (PyVal.int 0))
    ∧ (∀ e ∈ processGenerator w,
        e.type ≠ some "stage_done" ∧ e.group ≠ some "colmap"
        ∧ e.type ≠ some "log" ∧ e.type ≠ some "done") := by
  have hlen : ¬ (sortedImages w).length = 0 := by
    rw [hsplit]
    simp
  have hsh : processGenerator w =
      statusEv "Run queued" (PyVal.int 0) ::
      statusEv "Starting preprocessing..." (PyVal.int 2) ::
        (perImageEvs w.runId (sortedImages w).length 1 pre ++
         [errorEv ("Preprocessing failed: " ++ msg) (PyVal.int 0)]) := by
    simp only [processGenerator]
    rw [if_neg hlen, hsplit,
      preprocLoop_split w (pre ++ bad :: rest).length bad msg rest hbad pre 1 hok]
  refine ⟨hsh, ?_, ?_, ?_⟩
  · rw [hsh]
    simp only [List.countP_cons, List.countP_append, perImageEvs_countP]
    simp [statusEv, errorEv, List.countP_cons]
  · rw [hsh]
    have hre : statusEv "Run queued" (PyVal.int 0) ::
        statusEv "Starting preprocessing..." (PyVal.int 2) ::
          (perImageEvs w.runId (sortedImages w).length 1 pre ++
           [errorEv ("Preprocessing failed: " ++ msg) (PyVal.int 0)]) =
        (statusEv "Run queued" (PyVal.int 0) ::
         statusEv "Starting preprocessing..." (PyVal.int 2) ::
          perImageEvs w.runId (sortedImages w).length 1 pre) ++
        [errorEv ("Preprocessing failed: " ++ msg) (PyVal.int 0)] := by
      simp
    rw [hre, List.getLast?_concat]
  · intro e he
    rw [hsh] at he
    simp only [List.mem_cons, List.mem_append, List.mem_singleton, List.not_mem_nil,
      or_false] at he
    rcases he with rfl | rfl | hpi | rfl
    · exact ⟨by decide, by decide, by decide, by decide⟩
    · exact ⟨by decide, by decide, by decide, by decide⟩
    · obtain ⟨p, j, rfl⟩ := perImageEvs_shape w.runId (sortedImages w).length pre 1 e hpi
      exact ⟨by simp [preprocImageEv], by simp [preprocImageEv],
        by simp [preprocImageEv], by simp [preprocImageEv]⟩
    · exact ⟨by simp [errorEv], by simp [errorEv], by simp [errorEv], by simp [errorEv]⟩

/-- Witness for C6: three images, the second (b.jpg in filename order)
fails, so exactly one per-image event precedes the terminal error. -/
theorem C6_first_failure_aborts_run_witness :
    (sortedImages wMidFail = ["a.jpg"] ++ "b.jpg" :: ["c.jpg"]
     ∧ wMidFail.preprocessFail "b.jpg" = some "boom")
    ∧ (processGenerator wMidFail).countP
        (fun e => e.type == some "preprocess_image") = ["a.jpg"].length :=
  ⟨⟨by decide, by decide⟩,
   (C6_first_failure_aborts_run wMidFail ["a.jpg"] ["c.jpg"] "b.jpg" "boom"
     (by decide) (by decide) (by decide)).2.1⟩
